import Mathlib

/-!
Shallow embedding of the surf-EPG condition-assessment and scheduling
pipeline (`src/generate_epg.py`) and proofs about it.

Conventions of the embedding:
* Python floats carried through the pipeline are modelled as rationals
  (`ℚ`); every operation the claims touch is an order comparison or an
  exact constant, so this is faithful for the inputs under discussion.
* Wind directions are whole degrees, modelled as `Int` (the classifier
  only compares them against the integer bounds of a spot's offshore
  range and uses `%`, which on nonnegative Python ints agrees with
  `Int.emod`).
* Python `None` / a JSON `null` is `Option.none`; an absent array is the
  empty list.
* A Python `dict` used as an insertion-ordered map is an association
  list to which new keys are appended on first write.
* An uncaught Python exception (e.g. `IndexError`) is `Option.none` at
  the result type of the function in which it is raised.
-/

set_option maxHeartbeats 1000000

namespace SurfEPG

/-- A spot entry of `SPOTS_CONFIG`: latitude, longitude, display name,
facing direction, the `(start, end)` offshore wind sector in degrees,
and the free-text description. -/
structure SpotConfig where
  lat : ℚ
  lon : ℚ
  name : String
  facing : Int
  offshore_wind : Int × Int
  description : String
deriving Repr, DecidableEq

/-- The `SPOTS_CONFIG` table of `generate_epg.py`, as an insertion-ordered
association list keyed by spot id. -/
def SPOTS_CONFIG : List (String × SpotConfig) :=
  [ ("ribeira",
      ⟨38.988, -9.419, "Ribeira d'Ilhas", 290, (45, 135),
        "World-class right point break"⟩),
    ("supertubos",
      ⟨39.345, -9.363, "Supertubos", 240, (0, 90),
        "Heavy beach break, the Portuguese Pipeline"⟩),
    ("molheleste",
      ⟨39.349, -9.370, "Molhe Leste", 270, (45, 135),
        "Sheltered jetty spot, works on big swells"⟩),
    ("meio_baia",
      ⟨39.358, -9.351, "Meio da Baia", 300, (90, 180),
        "Middle of the bay, mellower waves"⟩),
    ("cantinho",
      ⟨39.368, -9.355, "Cantinho da Baia", 320, (100, 200),
        "Protected corner, good for smaller days"⟩),
    ("baleal_n",
      ⟨39.385, -9.345, "Baleal Norte", 10, (135, 225),
        "North-facing, works when south side is maxed"⟩),
    ("lagide",
      ⟨39.390, -9.350, "Lagide", 350, (135, 225),
        "Powerful reef break, needs solid swell"⟩) ]

/-- A `CHANNELS` entry: channel id, associated spot id, display name and
artwork references. -/
structure Channel where
  id : String
  spot : String
  name : String
  logo : String
  poster : String
deriving Repr, DecidableEq

/-- The `CHANNELS` list of `generate_epg.py`. -/
def CHANNELS : List Channel :=
  [ ⟨"ericeira-surfline", "ribeira", "Surfline Ericeira", "ericeira.png?v=2", "ericeira_poster.jpg"⟩,
    ⟨"ericeira-meo", "ribeira", "MEO Ericeira", "ericeira.png?v=2", "ericeira_poster.jpg"⟩,
    ⟨"supertubos-surfline", "supertubos", "Surfline Supertubos", "supertubos.png?v=2", "supertubos_poster.jpg"⟩,
    ⟨"supertubos-meo", "supertubos", "MEO Supertubos", "supertubos.png?v=2", "supertubos_poster.jpg"⟩,
    ⟨"molheleste-surfline", "molheleste", "Surfline Molhe Leste", "molheleste.png?v=2", "molheleste_poster.jpg"⟩,
    ⟨"molheleste-meo", "molheleste", "MEO Molhe Leste", "molheleste.png?v=2", "molheleste_poster.jpg"⟩,
    ⟨"baia-meo", "meio_baia", "MEO Baia", "baleal.png?v=2", "baleal_poster.jpg"⟩,
    ⟨"cantinho-surfline", "cantinho", "Surfline Cantinho", "cantinho.png?v=2", "cantinho_poster.jpg"⟩,
    ⟨"cantinho-meo", "cantinho", "MEO Cantinho", "cantinho.png?v=2", "cantinho_poster.jpg"⟩,
    ⟨"baleal-surfline", "baleal_n", "Surfline Baleal", "baleal.png?v=2", "baleal_poster.jpg"⟩,
    ⟨"lagide-surfline", "lagide", "Surfline Lagide", "lagide.png?v=2", "lagide_poster.jpg"⟩,
    ⟨"lagide-meo", "lagide", "MEO Lagide", "lagide.png?v=2", "lagide_poster.jpg"⟩ ]

/-- Membership test of a wind direction `d` in a degree range `(a, b)`,
with the wraparound handling of `get_wind_label`: when `a > b` the range
crosses 0° and the test is `d ≥ a or d ≤ b`, otherwise `a ≤ d ≤ b`. -/
def in_range (d a b : Int) : Bool :=
  if a > b then decide (d ≥ a) || decide (d ≤ b)
  else decide (a ≤ d) && decide (d ≤ b)

/-- `get_wind_label` from `generate_epg.py`: classifies a wind direction
as `"OFFSHORE"`, `"ONSHORE"`, `"CROSS"`, or `"UNKNOWN"` for a `None`
direction, using the spot's `offshore_wind` range and, for the onshore
test, that range rotated by 180° with Python `%` (`Int.emod`). -/
def get_wind_label (wind_deg : Option Int) (spot_config : SpotConfig) : String :=
  match wind_deg with
  | none => "UNKNOWN"
  | some d =>
    let start := spot_config.offshore_wind.1
    let stop := spot_config.offshore_wind.2
    if in_range d start stop then "OFFSHORE"
    else
      let onshore_start := (start + 180) % 360
      let onshore_stop := (stop + 180) % 360
      if in_range d onshore_start onshore_stop then "ONSHORE"
      else "CROSS"

/-- The result record of `assess_conditions`: the rating string (the code
uses the emoji tiers `"🌊"` default, `"⚠️"` large, `"💨"` messy,
`"⭐⭐"` clean, `"😴"` flat), the accumulated note list, and the
rideability flag. -/
structure Assessment where
  rating : String
  notes : List String
  is_rideable : Bool
deriving Repr, DecidableEq

/-- The `# Too big?` block of `assess_conditions`: above 4.0 m the rating
becomes `"⚠️"` with the large-swell note, and above 6.0 m additionally
the danger note is appended and rideability is revoked. -/
def assessSize (swell_height : ℚ) (st : Assessment) : Assessment :=
  if swell_height > 4.0 then
    let notes := st.notes ++ ["Very large swell - experienced surfers only"]
    if swell_height > 6.0 then
      ⟨"⚠️", notes ++ ["Potentially dangerous - consider watching from shore"], false⟩
    else
      ⟨"⚠️", notes, st.is_rideable⟩
  else st

/-- The `# Wind check` block: onshore wind over 20 km/h rates `"💨"`
(messy) and over 35 km/h revokes rideability; otherwise (`elif`) offshore
wind with at least 1.0 m of swell rates `"⭐⭐"` (clean). -/
def assessWind (swell_height wind_speed : ℚ) (wind_label : String)
    (st : Assessment) : Assessment :=
  if wind_label = "ONSHORE" ∧ wind_speed > 20 then
    let notes := st.notes ++ ["Onshore wind making it messy"]
    if wind_speed > 35 then ⟨"💨", notes, false⟩
    else ⟨"💨", notes, st.is_rideable⟩
  else if wind_label = "OFFSHORE" ∧ swell_height ≥ 1.0 then
    ⟨"⭐⭐", st.notes ++ ["Clean conditions with offshore wind"], st.is_rideable⟩
  else st

/-- The `# Period check` block: period notes only. -/
def assessPeriod (swell_period : ℚ) (st : Assessment) : Assessment :=
  if swell_period < 8 then
    { st with notes := st.notes ++ ["Short period - weaker waves"] }
  else if swell_period > 14 then
    { st with notes := st.notes ++ ["Long period - powerful waves"] }
  else st

/-- The `# Wind waves adding chop` block: chop note only. -/
def assessChop (wind_wave_height : ℚ) (wind_label : String)
    (st : Assessment) : Assessment :=
  if wind_wave_height > 1.0 ∧ wind_label ≠ "OFFSHORE" then
    { st with notes := st.notes ++ ["Significant wind chop"] }
  else st

/-- The final `# Flat?` block: below 0.5 m the rating becomes `"😴"`,
the flat note is appended, and rideability is revoked. -/
def assessFlat (swell_height : ℚ) (st : Assessment) : Assessment :=
  if swell_height < 0.5 then ⟨"😴", st.notes ++ ["Essentially flat"], false⟩
  else st

/-- `assess_conditions` from `generate_epg.py`: the five blocks applied in
source order to the initial state `⟨"🌊", [], true⟩`. -/
def assess_conditions (swell_height swell_period wind_speed : ℚ)
    (wind_label : String) (wind_wave_height : ℚ) : Assessment :=
  assessFlat swell_height
    (assessChop wind_wave_height wind_label
      (assessPeriod swell_period
        (assessWind swell_height wind_speed wind_label
          (assessSize swell_height ⟨"🌊", [], true⟩))))

/-- The size gate revokes rideability exactly above 6.0 m. -/
lemma assessSize_is_rideable (h : ℚ) (st : Assessment) :
    (assessSize h st).is_rideable = if h > 6.0 then false else st.is_rideable := by
  unfold assessSize
  split_ifs <;> first | rfl | linarith

/-- The wind gate revokes rideability exactly for onshore wind above
35 km/h. -/
lemma assessWind_is_rideable (h w : ℚ) (lbl : String) (st : Assessment) :
    (assessWind h w lbl st).is_rideable =
      if lbl = "ONSHORE" ∧ w > 35 then false else st.is_rideable := by
  unfold assessWind
  split_ifs <;> first | rfl | tauto | (exfalso; simp_all <;> linarith)

/-- The period block does not change rideability. -/
lemma assessPeriod_is_rideable (p : ℚ) (st : Assessment) :
    (assessPeriod p st).is_rideable = st.is_rideable := by
  unfold assessPeriod
  split_ifs <;> rfl

/-- The chop block does not change rideability. -/
lemma assessChop_is_rideable (ww : ℚ) (lbl : String) (st : Assessment) :
    (assessChop ww lbl st).is_rideable = st.is_rideable := by
  unfold assessChop
  split_ifs <;> rfl

/-- The flat gate revokes rideability exactly below 0.5 m. -/
lemma assessFlat_is_rideable (h : ℚ) (st : Assessment) :
    (assessFlat h st).is_rideable = if h < 0.5 then false else st.is_rideable := by
  unfold assessFlat
  split_ifs <;> rfl

/-- Every block only appends to the note list, so membership is
preserved by the size block. -/
lemma assessSize_notes_mono (h : ℚ) (st : Assessment) (s : String)
    (hs : s ∈ st.notes) : s ∈ (assessSize h st).notes := by
  unfold assessSize
  split_ifs <;> simp [hs]

/-- Note membership is preserved by the wind block. -/
lemma assessWind_notes_mono (h w : ℚ) (lbl : String) (st : Assessment) (s : String)
    (hs : s ∈ st.notes) : s ∈ (assessWind h w lbl st).notes := by
  unfold assessWind
  split_ifs <;> simp [hs]

/-- Note membership is preserved by the period block. -/
lemma assessPeriod_notes_mono (p : ℚ) (st : Assessment) (s : String)
    (hs : s ∈ st.notes) : s ∈ (assessPeriod p st).notes := by
  unfold assessPeriod
  split_ifs <;> simp [hs]

/-- Note membership is preserved by the chop block. -/
lemma assessChop_notes_mono (ww : ℚ) (lbl : String) (st : Assessment) (s : String)
    (hs : s ∈ st.notes) : s ∈ (assessChop ww lbl st).notes := by
  unfold assessChop
  split_ifs <;> simp [hs]

/-- Note membership is preserved by the flat block. -/
lemma assessFlat_notes_mono (h : ℚ) (st : Assessment) (s : String)
    (hs : s ∈ st.notes) : s ∈ (assessFlat h st).notes := by
  unfold assessFlat
  split_ifs <;> simp [hs]

/-- Above 6.0 m the size block records the danger note. -/
lemma assessSize_danger_note (h : ℚ) (st : Assessment) (hh : h > 6.0) :
    "Potentially dangerous - consider watching from shore" ∈ (assessSize h st).notes := by
  have h4 : h > 4.0 := by
    have : (4.0 : ℚ) < 6.0 := by norm_num
    linarith
  unfold assessSize
  rw [if_pos h4, if_pos hh]
  simp

/-- Unfolding of the range test to a proposition. -/
lemma in_range_iff (d a b : Int) :
    in_range d a b = true ↔ (if a > b then a ≤ d ∨ d ≤ b else a ≤ d ∧ d ≤ b) := by
  unfold in_range
  split_ifs <;> simp [ge_iff_le]

/-- Negative unfolding of the range test. -/
lemma in_range_eq_false_iff (d a b : Int) :
    in_range d a b = false ↔ ¬ (if a > b then a ≤ d ∨ d ≤ b else a ≤ d ∧ d ≤ b) := by
  rw [Bool.eq_false_iff]
  exact not_congr (in_range_iff d a b)

/-- C2 counterexample: the claim `classify(0°, cfg) == classify(360°, cfg)`
fails on the code for the `supertubos` configuration (offshore range
`(0, 90)`): wind direction 0° is labelled `"OFFSHORE"` while 360° is
labelled `"CROSS"`, because `get_wind_label` compares the raw degree
value against the range bounds without reducing it mod 360. -/
theorem wind_label_not_circular_at_supertubos :
    (SPOTS_CONFIG.lookup "supertubos").map
        (fun cfg => (get_wind_label (some 0) cfg, get_wind_label (some 360) cfg)) =
      some ("OFFSHORE", "CROSS") ∧
    ((SPOTS_CONFIG.lookup "supertubos").map (fun cfg => get_wind_label (some 0) cfg) ≠
      (SPOTS_CONFIG.lookup "supertubos").map (fun cfg => get_wind_label (some 360) cfg)) := by
  constructor
  · rfl
  · decide

/-- C2 (amended): direction comparison in `get_wind_label` is linear, not
circular, so `classify(0°) = classify(360°)` only holds away from the
boundary configurations: for every offshore range `(s, e)` with
`0 ≤ s ≤ e < 360` whose start is neither 0° nor 180°, wind directions 0°
and 360° receive the same label. (The excluded starts are exactly where
the claim fails: `s = 0` puts 0° inside the offshore sector but not
360°, and `s = 180` does the same for the rotated onshore sector.) -/
theorem wind_label_agrees_at_0_and_360 (s e : Int)
    (h0 : 0 ≤ s) (hse : s ≤ e) (he : e < 360) (hs0 : s ≠ 0) (hs180 : s ≠ 180) :
    get_wind_label (some 0) ⟨0, 0, "", 0, (s, e), ""⟩ =
      get_wind_label (some 360) ⟨0, 0, "", 0, (s, e), ""⟩ := by
  have hoff0 : in_range 0 s e = false := by
    rw [in_range_eq_false_iff]; split_ifs <;> omega
  have hoff360 : in_range 360 s e = false := by
    rw [in_range_eq_false_iff]; split_ifs <;> omega
  have hon : in_range 0 ((s + 180) % 360) ((e + 180) % 360)
      = in_range 360 ((s + 180) % 360) ((e + 180) % 360) := by
    cases h360 : in_range 360 ((s + 180) % 360) ((e + 180) % 360) with
    | false =>
      rw [in_range_eq_false_iff] at h360 ⊢
      split_ifs at h360 ⊢ <;> omega
    | true =>
      rw [in_range_iff] at h360 ⊢
      split_ifs at h360 ⊢ <;> omega
  simp [get_wind_label, hoff0, hoff360, hon]

/-- C2 witness: the amended circularity statement holds at the concrete
offshore range `(45, 135)` (the Ribeira d'Ilhas / Molhe Leste sector). -/
theorem wind_label_agrees_at_0_and_360_witness :
    get_wind_label (some 0) ⟨0, 0, "", 0, (45, 135), ""⟩ =
      get_wind_label (some 360) ⟨0, 0, "", 0, (45, 135), ""⟩ :=
  wind_label_agrees_at_0_and_360 45 135 (by decide) (by decide) (by decide)
    (by decide) (by decide)

/-- C3: danger dominance. For any period, wind speed, wind label, and
wind-wave height, a swell height above 6.0 m makes `assess_conditions`
return `is_rideable = false`, and the note list contains the
"Potentially dangerous" marker; no later rule restores rideability. -/
theorem danger_dominates (swell_height swell_period wind_speed wind_wave_height : ℚ)
    (wind_label : String) (hbig : swell_height > 6.0) :
    (assess_conditions swell_height swell_period wind_speed wind_label
        wind_wave_height).is_rideable = false ∧
    "Potentially dangerous - consider watching from shore" ∈
      (assess_conditions swell_height swell_period wind_speed wind_label
        wind_wave_height).notes := by
  constructor
  · simp only [assess_conditions, assessFlat_is_rideable, assessChop_is_rideable,
      assessPeriod_is_rideable, assessWind_is_rideable, assessSize_is_rideable]
    split_ifs <;> simp_all
  · exact assessFlat_notes_mono _ _ _ (assessChop_notes_mono _ _ _ _
      (assessPeriod_notes_mono _ _ _ (assessWind_notes_mono _ _ _ _ _
        (assessSize_danger_note _ _ hbig))))

/-- C3 witness: scenario C of the spec, swell height 7.0 m with cross
wind, is not rideable and carries the danger note. -/
theorem danger_dominates_witness :
    (assess_conditions 7 10 5 "CROSS" 0.3).is_rideable = false ∧
    "Potentially dangerous - consider watching from shore" ∈
      (assess_conditions 7 10 5 "CROSS" 0.3).notes :=
  danger_dominates 7 10 5 0.3 "CROSS" (by norm_num)

/-- C4: flat dominance. A swell height below 0.5 m makes
`assess_conditions` return the flat rating tier (the code's `"😴"`
rating) and `is_rideable = false`, regardless of the wind label, because
the flat gate is the last assignment and overwrites any earlier
rating. -/
theorem flat_dominates (swell_height swell_period wind_speed wind_wave_height : ℚ)
    (wind_label : String) (hflat : swell_height < 0.5) :
    (assess_conditions swell_height swell_period wind_speed wind_label
        wind_wave_height).rating = "😴" ∧
    (assess_conditions swell_height swell_period wind_speed wind_label
        wind_wave_height).is_rideable = false := by
  unfold assess_conditions assessFlat
  rw [if_pos hflat]
  exact ⟨rfl, rfl⟩

/-- C4 witness: a 0.2 m swell under offshore wind is rated flat and not
rideable. -/
theorem flat_dominates_witness :
    (assess_conditions 0.2 10 5 "OFFSHORE" 0.3).rating = "😴" ∧
    (assess_conditions 0.2 10 5 "OFFSHORE" 0.3).is_rideable = false :=
  flat_dominates 0.2 10 5 0.3 "OFFSHORE" (by norm_num)

/-- C10: exact rideability characterization. `assess_conditions` returns
`is_rideable = false` precisely when the swell height exceeds 6.0 m, or
the wind label is `"ONSHORE"` with wind speed above 35 km/h, or the
swell height is below 0.5 m; in every other case it returns
`is_rideable = true`. -/
theorem rideable_characterization
    (swell_height swell_period wind_speed wind_wave_height : ℚ) (wind_label : String) :
    (assess_conditions swell_height swell_period wind_speed wind_label
        wind_wave_height).is_rideable = false ↔
      (swell_height > 6.0 ∨ (wind_label = "ONSHORE" ∧ wind_speed > 35) ∨
        swell_height < 0.5) := by
  simp only [assess_conditions, assessFlat_is_rideable, assessChop_is_rideable,
    assessPeriod_is_rideable, assessWind_is_rideable, assessSize_is_rideable]
  split_ifs <;> simp_all

/-- The `hourly` block of a successful Open-Meteo marine response: the
time axis plus the named parallel arrays requested by
`get_openmeteo_marine_data`. An array missing from the response is the
empty list; a `null` entry is `none`. -/
structure MarineHourly where
  time : List String
  wave_height : List (Option ℚ)
  wave_period : List (Option ℚ)
  wave_direction : List (Option ℚ)
  swell_wave_height : List (Option ℚ)
  swell_wave_period : List (Option ℚ)
  swell_wave_peak_period : List (Option ℚ)
  swell_wave_direction : List (Option ℚ)
  wind_wave_height : List (Option ℚ)
deriving Repr, DecidableEq

/-- The `hourly` block of a successful Open-Meteo weather response. -/
structure WeatherHourly where
  wind_speed_10m : List (Option ℚ)
  wind_direction_10m : List (Option ℚ)
  wind_gusts_10m : List (Option ℚ)
deriving Repr, DecidableEq

/-- One combined hour record, with the keys built by
`fetch_all_spot_data`. -/
structure Hour where
  time : String
  wave_height : Option ℚ
  wave_period : Option ℚ
  wave_direction : Option ℚ
  swell_height : Option ℚ
  swell_period : Option ℚ
  swell_peak_period : Option ℚ
  swell_direction : Option ℚ
  wind_wave_height : Option ℚ
  wind_speed : Option ℚ
  wind_direction : Option ℚ
  wind_gusts : Option ℚ
deriving Repr, DecidableEq

/-- Guarded indexing of a parallel array, as written per field in
`fetch_all_spot_data`: `arr[i] if i < len(arr) else None` (with the
missing-key default `[]` making the guard false). -/
def fieldAt (arr : List (Option ℚ)) (i : Nat) : Option ℚ :=
  (arr.get? i).join

/-- The hour record appended for index `i` and timestamp `t` of the
marine time axis in `fetch_all_spot_data`. -/
def combinedHour (m : MarineHourly) (w : WeatherHourly) (i : Nat) (t : String) : Hour :=
  ⟨t,
    fieldAt m.wave_height i,
    fieldAt m.wave_period i,
    fieldAt m.wave_direction i,
    fieldAt m.swell_wave_height i,
    fieldAt m.swell_wave_period i,
    fieldAt m.swell_wave_peak_period i,
    fieldAt m.swell_wave_direction i,
    fieldAt m.wind_wave_height i,
    fieldAt w.wind_speed_10m i,
    fieldAt w.wind_direction_10m i,
    fieldAt w.wind_gusts_10m i⟩

/-- The per-coordinate normalization step of `fetch_all_spot_data`: only
when both responses are present (`if marine_data and weather_data`) is an
hour list built, by iterating `enumerate` over the marine `time` axis;
when either fetch failed the coordinate is skipped (`none`: nothing is
stored in the cache). -/
def combineHours (marine : Option MarineHourly) (weather : Option WeatherHourly) :
    Option (List Hour) :=
  match marine, weather with
  | some m, some w => some (m.time.enum.map (fun p => combinedHour m w p.1 p.2))
  | _, _ => none

/-- Python `x or alt` on an optional numeric field, as used by the
fallback chains in `generate_xml`: `None` and the falsy value `0` both
fall through to the alternative. -/
def pyOrQ (v : Option ℚ) (alt : ℚ) : ℚ :=
  match v with
  | none => alt
  | some x => if x = 0 then alt else x

/-- `h.get('swell_height') or h.get('wave_height') or 0` from
`generate_xml`. -/
def resolve_swell_height (h : Hour) : ℚ :=
  pyOrQ h.swell_height (pyOrQ h.wave_height 0)

/-- `h.get('swell_peak_period') or h.get('swell_period') or 0` from
`generate_xml`. -/
def resolve_swell_period (h : Hour) : ℚ :=
  pyOrQ h.swell_peak_period (pyOrQ h.swell_period 0)

/-- `h.get('wind_wave_height') or 0` from `generate_xml`. -/
def resolve_wind_wave_height (h : Hour) : ℚ :=
  pyOrQ h.wind_wave_height 0

/-- `h.get('wind_speed') or 0` from `generate_xml`. -/
def resolve_wind_speed (h : Hour) : ℚ :=
  pyOrQ h.wind_speed 0

/-- `h.get('wind_direction') or 0` from `generate_xml`. -/
def resolve_wind_direction (h : Hour) : ℚ :=
  pyOrQ h.wind_direction 0

/-- `h.get('wind_gusts') or 0` from `generate_xml`. -/
def resolve_wind_gusts (h : Hour) : ℚ :=
  pyOrQ h.wind_gusts 0

/-- An hour record whose primary swell-height field is present and
non-null but zero, while the secondary `wave_height` field is 2. -/
def hourWithZeroSwell : Hour :=
  ⟨"2025-01-01T00:00", some 2, none, none, some 0, none, none, none, none,
    none, none, none⟩

/-- C5 counterexample: the claim says the primary field value is used
whenever it is present and non-null, but Python `or` also skips a
present value of `0`: on `hourWithZeroSwell` (swell height present and
equal to 0, wave height 2) the resolved swell height is 2, not 0. -/
theorem fallback_chain_skips_zero_primary :
    resolve_swell_height hourWithZeroSwell = 2 ∧
    hourWithZeroSwell.swell_height = some 0 ∧ (2 : ℚ) ≠ 0 := by
  refine ⟨by decide, rfl, by norm_num⟩

/-- C5 (amended): each field resolves by the chain primary field →
secondary field → 0, where a candidate is passed over precisely when it
is missing, null, or zero (Python truthiness), and resolution is total
(never raises). The primary value is used whenever it is present and
non-zero. -/
theorem fallback_chain_resolution (h : Hour) (x : ℚ) :
    (h.swell_height = some x → x ≠ 0 → resolve_swell_height h = x) ∧
    ((h.swell_height = none ∨ h.swell_height = some 0) →
      resolve_swell_height h = pyOrQ h.wave_height 0) ∧
    (h.wave_height = some x → x ≠ 0 → pyOrQ h.wave_height 0 = x) ∧
    ((h.wave_height = none ∨ h.wave_height = some 0) → pyOrQ h.wave_height 0 = 0) ∧
    (h.swell_peak_period = some x → x ≠ 0 → resolve_swell_period h = x) ∧
    ((h.swell_peak_period = none ∨ h.swell_peak_period = some 0) →
      resolve_swell_period h = pyOrQ h.swell_period 0) ∧
    (h.wind_speed = none → resolve_wind_speed h = 0) := by
  refine ⟨?_, ?_, ?_, ?_, ?_, ?_, ?_⟩
  · intro hx hx0
    simp [resolve_swell_height, pyOrQ, hx, hx0]
  · rintro (hn | hz)
    · simp [resolve_swell_height, pyOrQ, hn]
    · simp [resolve_swell_height, pyOrQ, hz]
  · intro hx hx0
    simp [pyOrQ, hx, hx0]
  · rintro (hn | hz)
    · simp [pyOrQ, hn]
    · simp [pyOrQ, hz]
  · intro hx hx0
    simp [resolve_swell_period, pyOrQ, hx, hx0]
  · rintro (hn | hz)
    · simp [resolve_swell_period, pyOrQ, hn]
    · simp [resolve_swell_period, pyOrQ, hz]
  · intro hn
    simp [resolve_wind_speed, pyOrQ, hn]

/-- An hour record with a non-zero primary swell height, for the C5
witness. -/
def hourWithSwellThree : Hour :=
  ⟨"2025-01-01T00:00", some 2, none, none, some 3, none, none, none, none,
    none, none, none⟩

/-- C5 witness: the amended chain semantics evaluated at a concrete
record with primary swell height 3. -/
theorem fallback_chain_resolution_witness :
    hourWithSwellThree.swell_height = some 3 ∧ (3 : ℚ) ≠ 0 ∧
    resolve_swell_height hourWithSwellThree = 3 :=
  ⟨rfl, by norm_num, (fallback_chain_resolution hourWithSwellThree 3).1 rfl (by norm_num)⟩

/-- A weather response with one hour of data, used to exhibit a
non-empty wind series. -/
def weatherOneHour : WeatherHourly :=
  ⟨[some 10], [some 180], [some 15]⟩

/-- A marine response whose arrays are all empty. -/
def marineEmpty : MarineHourly :=
  ⟨[], [], [], [], [], [], [], [], []⟩

/-- C6 counterexample: the claim says the normalizer still produces the
hour sequence when one input series is entirely absent, and that the
produced sequence is non-empty whenever either input is non-empty. On
the code, a missing marine response produces no sequence at all (the
coordinate is skipped), and an empty marine time axis produces the empty
sequence even though the wind series has an hour of data. -/
theorem normalizer_requires_both_series :
    combineHours none (some weatherOneHour) = none ∧
    combineHours (some marineEmpty) (some weatherOneHour) = some [] ∧
    weatherOneHour.wind_speed_10m.length = 1 := by
  exact ⟨rfl, rfl, rfl⟩

/-- C6 (amended): the combined hour sequence exists exactly when both
responses are present; its length is the length of the marine `time`
axis (regardless of the wind series); when either response is absent the
coordinate yields no sequence; and within a successful pair a missing
wind-series array yields `null` wind fields for every produced hour
(which downstream resolve to 0 through the `or 0` chains). -/
theorem normalizer_amended (m : MarineHourly) (w : WeatherHourly) :
    (∃ l, combineHours (some m) (some w) = some l ∧ l.length = m.time.length) ∧
    combineHours none (some w) = none ∧
    combineHours (some m) none = none ∧
    combineHours none none = none ∧
    (∀ l, combineHours (some m) (some ⟨[], [], []⟩) = some l →
      ∀ h ∈ l, h.wind_speed = none ∧ h.wind_direction = none ∧ h.wind_gusts = none) := by
  refine ⟨⟨_, rfl, ?_⟩, rfl, rfl, rfl, ?_⟩
  · simp
  · intro l hl h hh
    obtain rfl : (m.time.enum.map (fun p => combinedHour m ⟨[], [], []⟩ p.1 p.2)) = l :=
      Option.some.inj hl
    obtain ⟨p, _, rfl⟩ := List.mem_map.1 hh
    refine ⟨rfl, rfl, rfl⟩

/-- A marine response with a one-entry time axis and no data arrays. -/
def marineOneHour : MarineHourly :=
  ⟨["2025-01-01T00:00"], [], [], [], [], [], [], [], []⟩

/-- C6 witness: the amended statement evaluated at the one-hour marine
response paired with an empty wind response; the produced hour has null
wind fields. -/
theorem normalizer_amended_witness :
    (combinedHour marineOneHour ⟨[], [], []⟩ 0 "2025-01-01T00:00").wind_speed = none :=
  ((normalizer_amended marineOneHour ⟨[], [], []⟩).2.2.2.2
    [combinedHour marineOneHour ⟨[], [], []⟩ 0 "2025-01-01T00:00"] rfl
    (combinedHour marineOneHour ⟨[], [], []⟩ 0 "2025-01-01T00:00") (by simp)).1

/-- Python list indexing `l[i]`: a nonnegative index reads from the
front, a negative index `-k` reads `l[len(l)-k]`, and anything out of
range raises `IndexError` (modelled as `none`). -/
def pyIdx {α : Type} (l : List α) (i : Int) : Option α :=
  if 0 ≤ i then l.get? i.toNat
  else if -i ≤ (l.length : Int) then l.get? (l.length - (-i).toNat)
  else none

/-- The hour-entry resolution of `generate_xml`:
`hour_idx = min(hours_from_start, len(hours_list) - 1)` followed by
`hours_list[hour_idx]`. On an empty list the index is `-1` and the
lookup raises (`none`). -/
def resolveHour (hours_list : List Hour) (hours_from_start : Nat) : Option Hour :=
  pyIdx hours_list (min (hours_from_start : Int) ((hours_list.length : Int) - 1))

/-- What a (channel, block) iteration of `generate_xml` produces for one
channel: either the sentinel "No data available" entry (cache miss for
the coordinate) or an entry built from the resolved hour record. -/
inductive EntryResult where
  | sentinel (title descText : String)
  | fromHour (h : Hour)
deriving Repr, DecidableEq

/-- The per-channel entry construction of `generate_xml`, up to the
resolved hour: a coordinate absent from `weather_cache` keeps the
default title `ch['name']` and description `"No data available"`; a
present coordinate indexes its hour list with the clamped index, where
an empty hour list makes `hours_list[-1]` raise an uncaught
`IndexError` (`none`). -/
def buildEntry (chName : String) (spot_data : Option (List Hour))
    (hours_from_start : Nat) : Option EntryResult :=
  match spot_data with
  | none => some (.sentinel chName "No data available")
  | some hours_list =>
    match resolveHour hours_list hours_from_start with
    | none => none
    | some h => some (.fromHour h)

/-- C1 counterexample: the claim says an empty `ForecastHour` sequence
yields a sentinel "no data" programme entry instead of failing, but in
`generate_xml` a cached coordinate with an empty hour list reaches
`hours_list[min(idx, -1)]`, i.e. `hours_list[-1]`, which raises an
uncaught `IndexError`: no entry (and no sentinel) is produced. -/
theorem empty_sequence_raises_not_sentinel :
    buildEntry "Surfline Ericeira" (some []) 0 = none ∧
    buildEntry "Surfline Ericeira" (some []) 0 ≠
      some (.sentinel "Surfline Ericeira" "No data available") := by
  exact ⟨rfl, by decide⟩

/-- C1 (amended): for a non-empty hour sequence of length `L` and a
requested index `≥ L`, the resolved entry is the sequence's last
element (clamping, never an index error); the sentinel "No data
available" entry is emitted only when the coordinate is absent from the
cache; but a cached coordinate holding an empty sequence makes the
lookup raise an `IndexError` instead of producing a sentinel. -/
theorem clamping_resolves_last (l : List Hour) (n : Nat) (chName : String)
    (hne : l ≠ []) (hn : l.length ≤ n) :
    resolveHour l n = l.getLast? ∧
    buildEntry chName none n = some (.sentinel chName "No data available") ∧
    buildEntry chName (some ([] : List Hour)) n = none := by
  refine ⟨?_, rfl, ?_⟩
  · have hL : 1 ≤ l.length := List.length_pos.2 hne
    have hcast : (l.length : Int) ≤ (n : Int) := by exact_mod_cast hn
    have hmin : min (n : Int) ((l.length : Int) - 1) = (l.length : Int) - 1 := by
      omega
    have htn : ((l.length : Int) - 1).toNat = l.length - 1 := by omega
    unfold resolveHour pyIdx
    rw [hmin, if_pos (by omega : (0 : Int) ≤ (l.length : Int) - 1), htn]
    exact (List.getLast?_eq_get? l).symm
  · have hempty : resolveHour ([] : List Hour) n = none := by
      unfold resolveHour pyIdx
      have hmin : min (n : Int) ((List.length ([] : List Hour) : Int) - 1) = -1 := by
        simp; omega
      rw [hmin]
      norm_num
    simp [buildEntry, hempty]

/-- Two concrete hour records for the C1 witness. -/
def hourSeqForWitness : List Hour :=
  [⟨"h0", none, none, none, none, none, none, none, none, none, none, none⟩,
   ⟨"h1", none, none, none, none, none, none, none, none, none, none, none⟩]

/-- C1 witness: requesting hour index 5 from the two-element sequence
resolves to its last element. -/
theorem clamping_resolves_last_witness :
    hourSeqForWitness ≠ [] ∧ hourSeqForWitness.length ≤ 5 ∧
    resolveHour hourSeqForWitness 5 = hourSeqForWitness.getLast? :=
  ⟨by simp [hourSeqForWitness], by simp [hourSeqForWitness],
    (clamping_resolves_last hourSeqForWitness 5 "x" (by simp [hourSeqForWitness])
      (by simp [hourSeqForWitness])).1⟩

/-- `get_ai_commentary` from `generate_epg.py`. `hasAI` models
`HAS_AI and client`; `aiResponse` models the outcome of the external
call: `none` for a raised exception, `some ""` for a falsy
`response.text`, and `some t` for a successful text `t` (which the code
strips and cleans of quotes and newlines). Python float formatting of
the numeric context is rendered with `toString` on the rational. -/
def get_ai_commentary (hasAI : Bool) (aiResponse : Option String) (spot_name : String)
    (swell_height swell_period wind_speed : ℚ) (wind_label : String)
    (assessment : Assessment) : String :=
  if hasAI = false then
    if assessment.is_rideable = false then
      toString swell_height ++ "m - not ideal for surfing right now."
    else
      toString swell_height ++ "m @ " ++ toString swell_period ++ "s with " ++
        wind_label.toLower ++ " winds."
  else
    match aiResponse with
    | none => toString swell_height ++ "m swell (AI error)"
    | some t =>
      if t = "" then toString swell_height ++ "m swell (AI silent)"
      else ((t.trim).replace "\"" "").replace "\n" " "

/-- The `ai_cache` dict of `generate_xml` together with the ordered list
of keys for which the external generator was actually invoked. -/
structure AICache where
  entries : List (String × String)
  calls : List String
deriving Repr, DecidableEq

/-- The empty `ai_cache = {}` at the start of a run. -/
def emptyAICache : AICache := ⟨[], []⟩

/-- One cache consultation in `generate_xml`'s block loop:
`if ai_key not in ai_cache:` invoke the generator, store and return the
text; `else:` return the stored text. -/
def lookupStep (gen : String → String) (st : AICache) (key : String) :
    AICache × String :=
  match st.entries.lookup key with
  | some t => (st, t)
  | none => (⟨st.entries ++ [(key, gen key)], st.calls ++ [key]⟩, gen key)

/-- A sequence of cache consultations, threading the cache state. -/
def runKeys (gen : String → String) : AICache → List String → AICache
  | st, [] => st
  | st, k :: ks => runKeys gen (lookupStep gen st k).1 ks

/-- Association-list lookup distributes over append. -/
lemma lookup_append (l₁ l₂ : List (String × String)) (k : String) :
    (l₁ ++ l₂).lookup k = (l₁.lookup k).or (l₂.lookup k) := by
  induction l₁ with
  | nil => simp [List.lookup]
  | cons p t ih =>
    obtain ⟨a, b⟩ := p
    simp only [List.cons_append, List.lookup]
    cases k == a <;> simp [ih]

/-- Lookup in a one-entry association list under a different key. -/
lemma lookup_single_ne (a key v : String) (h : key ≠ a) :
    ([(a, v)] : List (String × String)).lookup key = none := by
  have hb : (key == a) = false := beq_eq_false_iff_ne.mpr h
  simp [List.lookup, hb]

/-- A consultation that finds the key returns the stored text unchanged. -/
lemma lookupStep_of_found (gen : String → String) (st : AICache) (key v : String)
    (h : st.entries.lookup key = some v) :
    lookupStep gen st key = (st, v) := by
  simp [lookupStep, h]

/-- A stored cache entry survives one consultation step. -/
lemma lookupStep_preserves (gen : String → String) (st : AICache) (key k v : String)
    (h : st.entries.lookup k = some v) :
    ((lookupStep gen st key).1).entries.lookup k = some v := by
  unfold lookupStep
  cases hfind : st.entries.lookup key with
  | some t => simpa [hfind] using h
  | none => simp [hfind, lookup_append, h]

/-- A stored cache entry survives any sequence of consultations. -/
lemma runKeys_preserves (gen : String → String) (ks : List String) :
    ∀ (st : AICache) (k v : String), st.entries.lookup k = some v →
      ((runKeys gen st ks).entries).lookup k = some v := by
  induction ks with
  | nil => intro st k v h; exact h
  | cons a t ih =>
    intro st k v h
    exact ih _ _ _ (lookupStep_preserves gen st a k v h)

/-- After a consultation, the key holds the returned text. -/
lemma lookupStep_caches (gen : String → String) (st : AICache) (key : String) :
    ((lookupStep gen st key).1).entries.lookup key =
      some (lookupStep gen st key).2 := by
  unfold lookupStep
  cases hfind : st.entries.lookup key with
  | some t => simpa [hfind] using hfind
  | none => simp [hfind, lookup_append, List.lookup]

/-- Generator-invocation bound, as an invariant over consultation
sequences: once a key is cached its call count is frozen, and an
uncached key gains at most one call. -/
lemma runKeys_calls_bound (gen : String → String) (ks : List String) :
    ∀ (st : AICache) (key : String),
      ((st.entries.lookup key).isSome = true →
        ((runKeys gen st ks).calls).count key = st.calls.count key) ∧
      ((st.entries.lookup key).isSome = false →
        ((runKeys gen st ks).calls).count key ≤ st.calls.count key + 1) := by
  induction ks with
  | nil => intro st key; exact ⟨fun _ => rfl, fun _ => Nat.le_succ _⟩
  | cons a t ih =>
    intro st key
    constructor
    · intro hsome
      show ((runKeys gen (lookupStep gen st a).1 t).calls).count key = _
      cases hfind : st.entries.lookup a with
      | some v =>
        have hstep : (lookupStep gen st a).1 = st := by simp [lookupStep, hfind]
        rw [hstep]
        exact (ih st key).1 hsome
      | none =>
        have hak : a ≠ key := by
          intro hak
          rw [hak] at hfind
          rw [hfind] at hsome
          simp at hsome
        have hstep : (lookupStep gen st a).1 =
            ⟨st.entries ++ [(a, gen a)], st.calls ++ [a]⟩ := by
          simp [lookupStep, hfind]
        rw [hstep]
        have hlook : (st.entries ++ [(a, gen a)]).lookup key = st.entries.lookup key := by
          rw [lookup_append]
          cases hk : st.entries.lookup key with
          | some v => rfl
          | none => simp [lookup_single_ne a key (gen a) (Ne.symm hak)]
        have := (ih ⟨st.entries ++ [(a, gen a)], st.calls ++ [a]⟩ key).1
          (by simpa [hlook] using hsome)
        rw [this]
        simp [List.count_append, List.count_cons, hak]
    · intro hnone
      show ((runKeys gen (lookupStep gen st a).1 t).calls).count key ≤ _
      cases hfind : st.entries.lookup a with
      | some v =>
        have hstep : (lookupStep gen st a).1 = st := by simp [lookupStep, hfind]
        rw [hstep]
        exact (ih st key).2 hnone
      | none =>
        have hstep : (lookupStep gen st a).1 =
            ⟨st.entries ++ [(a, gen a)], st.calls ++ [a]⟩ := by
          simp [lookupStep, hfind]
        rw [hstep]
        by_cases hak : a = key
        · subst hak
          have hlook : (st.entries ++ [(a, gen a)]).lookup a = some (gen a) := by
            rw [lookup_append]
            rw [show st.entries.lookup a = none from hfind]
            simp [List.lookup]
          have := (ih ⟨st.entries ++ [(a, gen a)], st.calls ++ [a]⟩ a).1
            (by simp [hlook])
          rw [this]
          simp [List.count_append, List.count_cons]
        · have hlook : (st.entries ++ [(a, gen a)]).lookup key = st.entries.lookup key := by
            rw [lookup_append]
            cases hk : st.entries.lookup key with
            | some v => rfl
            | none => simp [lookup_single_ne a key (gen a) (fun hkey => hak hkey.symm)]
          have := (ih ⟨st.entries ++ [(a, gen a)], st.calls ++ [a]⟩ key).2
            (by simpa [hlook] using hnone)
          refine le_trans this ?_
          simp [List.count_append, List.count_cons, hak]

/-- C7: cache idempotence and deterministic fallback. For any generator
behavior: (1) after a key has been consulted once, a later consultation
of the same key — after any interleaved consultations — returns the same
text and leaves the cache state untouched (so the generator is not
re-invoked); (2) over any run starting from the empty cache, the
generator is invoked at most once per key; (3) without an AI client the
returned fallback text depends only on the numeric context (swell
height, period, wind label, rideability), not on the response or the
spot name; (4) when the generator raises, the stored text is the
deterministic `"<height>m swell (AI error)"` fallback. -/
theorem commentary_cache_idempotent :
    (∀ (gen : String → String) (st : AICache) (key : String) (ks : List String),
      (lookupStep gen (runKeys gen (lookupStep gen st key).1 ks) key).2 =
        (lookupStep gen st key).2 ∧
      (lookupStep gen (runKeys gen (lookupStep gen st key).1 ks) key).1 =
        runKeys gen (lookupStep gen st key).1 ks) ∧
    (∀ (gen : String → String) (ks : List String) (key : String),
      ((runKeys gen emptyAICache ks).calls).count key ≤ 1) ∧
    (∀ (r r' : Option String) (nm nm' : String) (h p w w' : ℚ) (lbl : String)
        (a : Assessment),
      get_ai_commentary false r nm h p w lbl a =
        get_ai_commentary false r' nm' h p w' lbl a) ∧
    (∀ (nm : String) (h p w : ℚ) (lbl : String) (a : Assessment),
      get_ai_commentary true none nm h p w lbl a =
        toString h ++ "m swell (AI error)") := by
  refine ⟨?_, ?_, ?_, ?_⟩
  · intro gen st key ks
    have h1 : ((lookupStep gen st key).1).entries.lookup key =
        some (lookupStep gen st key).2 := lookupStep_caches gen st key
    have h2 : ((runKeys gen (lookupStep gen st key).1 ks).entries).lookup key =
        some (lookupStep gen st key).2 :=
      runKeys_preserves gen ks _ key _ h1
    rw [lookupStep_of_found gen _ key _ h2]
    exact ⟨rfl, rfl⟩
  · intro gen ks key
    have := (runKeys_calls_bound gen ks emptyAICache key).2 (by simp [emptyAICache, List.lookup])
    simpa [emptyAICache] using this
  · intro r r' nm nm' h p w w' lbl a
    simp [get_ai_commentary]
  · intro nm h p w lbl a
    simp [get_ai_commentary]

/-- C7 never-overwritten conjunct, stated separately only through the
main theorem's parts: an entry stored under a key is still the value
read by a later consultation. This is part (1) of the main theorem; this
witness instantiates the whole statement at a concrete generator, state,
key and interleaving. -/
theorem commentary_cache_idempotent_probe :
    (lookupStep (fun _ => "fresh")
        (runKeys (fun _ => "fresh")
          (lookupStep (fun _ => "fresh") emptyAICache "ribeira-0-1").1
          ["supertubos-0-1", "ribeira-0-1"])
        "ribeira-0-1").2 =
      (lookupStep (fun _ => "fresh") emptyAICache "ribeira-0-1").2 :=
  (commentary_cache_idempotent.1 (fun _ => "fresh") emptyAICache "ribeira-0-1"
    ["supertubos-0-1", "ribeira-0-1"]).1

/-- The coordinate key `f"{spot['lat']},{spot['lon']}"` of
`fetch_all_spot_data`. The f-string renders the two floats, which is an
injective encoding of the pair, so the key is modelled as the pair
itself. -/
def coordKeyOf (spot : SpotConfig) : ℚ × ℚ := (spot.lat, spot.lon)

/-- The `unique_coords` accumulation loop of `fetch_all_spot_data`: walk
the registry in order and, for each spot whose coordinate key is not yet
present, append `coord_key ↦ (lat, lon, name)` (Python dicts preserve
insertion order). -/
def uniqueCoordsGo (acc : List ((ℚ × ℚ) × (ℚ × ℚ × String))) :
    List (String × SpotConfig) → List ((ℚ × ℚ) × (ℚ × ℚ × String))
  | [] => acc
  | p :: rest =>
    if coordKeyOf p.2 ∈ acc.map Prod.fst then uniqueCoordsGo acc rest
    else uniqueCoordsGo (acc ++ [(coordKeyOf p.2, (p.2.lat, p.2.lon, p.2.name))]) rest

/-- `unique_coords` built from an empty dict over the spot registry. -/
def unique_coords (spots : List (String × SpotConfig)) :
    List ((ℚ × ℚ) × (ℚ × ℚ × String)) :=
  uniqueCoordsGo [] spots

/-- The sequence of coordinates for which the fetch loop of
`fetch_all_spot_data` issues its (marine + weather) fetch unit: one per
entry of `unique_coords`, in dict order. -/
def fetchTargets (spots : List (String × SpotConfig)) : List (ℚ × ℚ) :=
  (unique_coords spots).map Prod.fst

/-- Specification-side first-seen deduplication: keep each element's
first occurrence, in order of first occurrence. Stated from the spec's
words ("preserving first-seen order") for comparison with the code's
accumulation loop. -/
def dedupKeepFirst {α : Type} [DecidableEq α] : List α → List α
  | [] => []
  | a :: l => a :: dedupKeepFirst (l.filter (fun b => decide (b ≠ a)))
termination_by l => l.length
decreasing_by
  simp only [List.length_cons]
  exact Nat.lt_succ_of_le (List.length_filter_le _ _)

/-- Membership in the first-seen dedup is membership in the original
list. -/
lemma mem_dedupKeepFirst {α : Type} [DecidableEq α] :
    ∀ (n : Nat) (l : List α), l.length ≤ n → ∀ a, (a ∈ dedupKeepFirst l ↔ a ∈ l) := by
  intro n
  induction n with
  | zero =>
    intro l hl a
    rw [Nat.le_zero, List.length_eq_zero] at hl
    subst hl
    simp [dedupKeepFirst]
  | succ m ih =>
    intro l hl a
    cases l with
    | nil => simp [dedupKeepFirst]
    | cons x t =>
      rw [dedupKeepFirst]
      have hlen : (t.filter (fun b => decide (b ≠ x))).length ≤ m :=
        le_trans (List.length_filter_le _ _) (Nat.succ_le_succ_iff.1 hl)
      by_cases hax : a = x
      · simp [hax]
      · simp only [List.mem_cons, ih _ hlen a, List.mem_filter, decide_eq_true_eq]
        constructor
        · rintro (h | ⟨h, _⟩)
          · exact Or.inl h
          · exact Or.inr h
        · rintro (h | h)
          · exact Or.inl h
          · exact Or.inr ⟨h, hax⟩

/-- The first-seen dedup has no duplicates. -/
lemma nodup_dedupKeepFirst {α : Type} [DecidableEq α] :
    ∀ (n : Nat) (l : List α), l.length ≤ n → (dedupKeepFirst l).Nodup := by
  intro n
  induction n with
  | zero =>
    intro l hl
    rw [Nat.le_zero, List.length_eq_zero] at hl
    subst hl
    simp [dedupKeepFirst]
  | succ m ih =>
    intro l hl
    cases l with
    | nil => simp [dedupKeepFirst]
    | cons x t =>
      rw [dedupKeepFirst]
      have hlen : (t.filter (fun b => decide (b ≠ x))).length ≤ m :=
        le_trans (List.length_filter_le _ _) (Nat.succ_le_succ_iff.1 hl)
      refine List.nodup_cons.2 ⟨?_, ih _ hlen⟩
      intro hx
      have := (mem_dedupKeepFirst _ _ le_rfl x).1 hx
      rcases List.mem_filter.1 this with ⟨_, hne⟩
      simp at hne

/-- The accumulation loop computes: keys already seen are skipped, and
the keys appended after the initial accumulator are exactly the
first-seen dedup of the not-yet-seen coordinate keys. -/
lemma uniqueCoordsGo_keys (spots : List (String × SpotConfig)) :
    ∀ (acc : List ((ℚ × ℚ) × (ℚ × ℚ × String))),
      (uniqueCoordsGo acc spots).map Prod.fst =
        acc.map Prod.fst ++
          dedupKeepFirst ((spots.map (fun p => coordKeyOf p.2)).filter
            (fun k => decide (k ∉ acc.map Prod.fst))) := by
  induction spots with
  | nil => intro acc; simp [uniqueCoordsGo, dedupKeepFirst]
  | cons p rest ih =>
    intro acc
    by_cases hk : coordKeyOf p.2 ∈ acc.map Prod.fst
    · rw [uniqueCoordsGo, if_pos hk, ih acc]
      congr 2
      simp only [List.map_cons, List.filter_cons]
      rw [if_neg (by simp [hk])]
    · rw [uniqueCoordsGo, if_neg hk, ih]
      have hmapfst : (acc ++ [(coordKeyOf p.2, (p.2.lat, p.2.lon, p.2.name))]).map Prod.fst =
          acc.map Prod.fst ++ [coordKeyOf p.2] := by
        simp
      rw [hmapfst, List.append_assoc]
      congr 1
      have hfilters :
          ((rest.map (fun q => coordKeyOf q.2)).filter
              (fun k => decide (k ∉ acc.map Prod.fst ++ [coordKeyOf p.2]))) =
            (((rest.map (fun q => coordKeyOf q.2)).filter
              (fun k => decide (k ∉ acc.map Prod.fst))).filter
                (fun k => decide (k ≠ coordKeyOf p.2))) := by
        rw [List.filter_filter]
        apply List.filter_congr
        intro x _
        by_cases h1 : x ∈ acc.map Prod.fst <;> by_cases h2 : x = coordKeyOf p.2 <;>
          simp [h1, h2, List.mem_append]
      simp only [List.map_cons, List.filter_cons]
      rw [if_pos (by simp [hk])]
      rw [dedupKeepFirst, hfilters]
      rw [List.singleton_append]

/-- C8: coordinate deduplication. The fetch loop issues exactly one
fetch unit per distinct coordinate key: the fetched coordinate sequence
is the first-seen dedup of the registry's coordinate keys (so the
coordinate map preserves first-seen order), its length is the number of
distinct coordinates K (independent of the number of spots N), and it
contains no duplicates. -/
theorem coordinate_dedup (spots : List (String × SpotConfig)) :
    fetchTargets spots = dedupKeepFirst (spots.map (fun p => coordKeyOf p.2)) ∧
    (fetchTargets spots).length = (spots.map (fun p => coordKeyOf p.2)).toFinset.card ∧
    (fetchTargets spots).Nodup := by
  have hmain : fetchTargets spots = dedupKeepFirst (spots.map (fun p => coordKeyOf p.2)) := by
    have := uniqueCoordsGo_keys spots []
    simpa [fetchTargets, unique_coords] using this
  refine ⟨hmain, ?_, ?_⟩
  · rw [hmain]
    have hnd := nodup_dedupKeepFirst (spots.map (fun p => coordKeyOf p.2)).length
      (spots.map (fun p => coordKeyOf p.2)) le_rfl
    have hset : (dedupKeepFirst (spots.map (fun p => coordKeyOf p.2))).toFinset =
        (spots.map (fun p => coordKeyOf p.2)).toFinset := by
      apply Finset.ext
      intro a
      simp [List.mem_toFinset,
        mem_dedupKeepFirst (spots.map (fun p => coordKeyOf p.2)).length _ le_rfl]
    rw [← hset, List.toFinset_card_of_nodup hnd]
  · rw [hmain]
    exact nodup_dedupKeepFirst _ _ le_rfl

/-- The programme-emission order of `generate_xml`: the loop nest is
`for day in range(days): for block in range(4): for ch in CHANNELS:`,
appending one `(day, block, channel)` programme per innermost
iteration. -/
def scheduleOrder (days : Nat) (channels : List String) : List (Nat × Nat × String) :=
  (List.range days).flatMap (fun day =>
    (List.range 4).flatMap (fun block =>
      channels.map (fun ch => (day, block, ch))))

/-- Specification-side ordering: channel-major, time-minor (all blocks
of one channel consecutive, in ascending time, before the next
channel's entries), stated from the spec's words for comparison with
the code's emission order. -/
def channelMajorOrder (days : Nat) (channels : List String) : List (Nat × Nat × String) :=
  channels.flatMap (fun ch =>
    (List.range days).flatMap (fun day =>
      (List.range 4).map (fun block => (day, block, ch))))

/-- The chronological position of a programme entry: day × 4 + block. -/
def timeKey (x : Nat × Nat × String) : Nat := x.1 * 4 + x.2.1

/-- The channel ids of the `CHANNELS` list, in list order. -/
def channelIds : List String := CHANNELS.map (fun ch => ch.id)

/-- C9 counterexample: for a one-day run over the program's `CHANNELS`
list, the emitted programme order is not channel-major: the second
emitted entry is block 0 of the second channel, where a channel-major
ordering would place block 1 of the first channel. The emission order
is time-major (block-by-block), channel-minor. -/
theorem programme_order_not_channel_major :
    (scheduleOrder 1 channelIds).get? 1 = some (0, 0, "ericeira-meo") ∧
    (channelMajorOrder 1 channelIds).get? 1 = some (0, 1, "ericeira-surfline") ∧
    scheduleOrder 1 channelIds ≠ channelMajorOrder 1 channelIds := by
  refine ⟨rfl, rfl, by decide⟩

/-- The programme sub-list emitted for one day. -/
def dayChunk (d : Nat) (channels : List String) : List (Nat × Nat × String) :=
  (List.range 4).flatMap (fun block => channels.map (fun ch => (d, block, ch)))

/-- Splitting the last day off the emission order. -/
lemma scheduleOrder_succ (n : Nat) (channels : List String) :
    scheduleOrder (n + 1) channels = scheduleOrder n channels ++ dayChunk n channels := by
  unfold scheduleOrder dayChunk
  rw [List.range_succ, List.flatMap_append]
  simp

/-- Counting occurrences in one channel-map chunk. -/
lemma count_map_triple (d b : Nat) (channels : List String) (d' b' : Nat) (c : String) :
    (channels.map (fun x => (d, b, x))).count (d', b', c) =
      if d = d' ∧ b = b' then channels.count c else 0 := by
  induction channels with
  | nil => simp
  | cons a t ih =>
    simp only [List.map_cons, List.count_cons, ih]
    by_cases h1 : d = d' <;> by_cases h2 : b = b' <;> by_cases h3 : a = c <;>
      simp [h1, h2, h3, Prod.ext_iff] <;> omega

/-- Counting occurrences in one day's chunk. -/
lemma dayChunk_count (d : Nat) (channels : List String) (d' b' : Nat) (c : String) :
    (dayChunk d channels).count (d', b', c) =
      if d' = d ∧ b' < 4 then channels.count c else 0 := by
  have hr : List.range 4 = [0, 1, 2, 3] := rfl
  unfold dayChunk
  rw [hr]
  simp only [List.cons_flatMap, List.nil_flatMap, List.append_nil, List.count_append,
    count_map_triple]
  by_cases h1 : d = d'
  · rcases Nat.lt_or_ge b' 4 with hb | hb
    · interval_cases b' <;> simp [h1, hb]
    · have hb0 : ¬ (0 : Nat) = b' := by omega
      have hb1 : ¬ (1 : Nat) = b' := by omega
      have hb2 : ¬ (2 : Nat) = b' := by omega
      have hb3 : ¬ (3 : Nat) = b' := by omega
      have hb4 : ¬ b' < 4 := by omega
      simp [h1, hb0, hb1, hb2, hb3, hb4]
  · have hno : ¬ (d' = d ∧ b' < 4) := fun hc => h1 hc.1.symm
    simp [h1, hno]

/-- Entries of the emission order have day below `days` and block below
4. -/
lemma mem_scheduleOrder (x : Nat × Nat × String) (days : Nat) (channels : List String)
    (hx : x ∈ scheduleOrder days channels) : x.1 < days ∧ x.2.1 < 4 := by
  unfold scheduleOrder at hx
  rcases List.mem_flatMap.1 hx with ⟨d, hd, hx2⟩
  rcases List.mem_flatMap.1 hx2 with ⟨b, hb, hx3⟩
  rcases List.mem_map.1 hx3 with ⟨c, _, rfl⟩
  exact ⟨List.mem_range.1 hd, List.mem_range.1 hb⟩

/-- Entries of one day's chunk carry that day and a block below 4. -/
lemma mem_dayChunk (x : Nat × Nat × String) (d : Nat) (channels : List String)
    (hx : x ∈ dayChunk d channels) : x.1 = d ∧ x.2.1 < 4 := by
  unfold dayChunk at hx
  rcases List.mem_flatMap.1 hx with ⟨b, hb, hx2⟩
  rcases List.mem_map.1 hx2 with ⟨c, _, rfl⟩
  exact ⟨rfl, List.mem_range.1 hb⟩

/-- A reflexive-valued relation holds pairwise on any list. -/
lemma pairwise_of_all {α : Type} {R : α → α → Prop} (h : ∀ a b, R a b) :
    ∀ l : List α, l.Pairwise R
  | [] => List.Pairwise.nil
  | a :: t => List.Pairwise.cons (fun b _ => h a b) (pairwise_of_all h t)

/-- Within one day's chunk, time keys are nondecreasing. -/
lemma dayChunk_pairwise (d : Nat) (channels : List String) :
    (dayChunk d channels).Pairwise (fun x y => timeKey x ≤ timeKey y) := by
  have hr : List.range 4 = [0, 1, 2, 3] := rfl
  unfold dayChunk
  rw [hr]
  simp only [List.cons_flatMap, List.nil_flatMap, List.append_nil]
  have hmap : ∀ b : Nat, (channels.map (fun ch => (d, b, ch))).Pairwise
      (fun x y => timeKey x ≤ timeKey y) := by
    intro b
    rw [List.pairwise_map]
    exact pairwise_of_all (fun a c => le_refl _) channels
  have hcross : ∀ (b b' : Nat), b ≤ b' →
      ∀ x ∈ channels.map (fun ch => (d, b, ch)),
      ∀ y ∈ channels.map (fun ch => (d, b', ch)), timeKey x ≤ timeKey y := by
    intro b b' hbb x hx y hy
    rcases List.mem_map.1 hx with ⟨cx, _, rfl⟩
    rcases List.mem_map.1 hy with ⟨cy, _, rfl⟩
    simp [timeKey]
    omega
  refine List.pairwise_append.2 ⟨hmap 0, ?_, ?_⟩
  · refine List.pairwise_append.2 ⟨hmap 1, ?_, ?_⟩
    · refine List.pairwise_append.2 ⟨hmap 2, hmap 3, ?_⟩
      intro x hx y hy
      exact hcross 2 3 (by omega) x hx y hy
    · intro x hx y hy
      rcases List.mem_append.1 hy with hy2 | hy3
      · exact hcross 1 2 (by omega) x hx y hy2
      · exact hcross 1 3 (by omega) x hx y hy3
  · intro x hx y hy
    rcases List.mem_append.1 hy with hy1 | hy23
    · exact hcross 0 1 (by omega) x hx y hy1
    · rcases List.mem_append.1 hy23 with hy2 | hy3
      · exact hcross 0 2 (by omega) x hx y hy2
      · exact hcross 0 3 (by omega) x hx y hy3

/-- Length, per-triple count, and time-monotonicity of the emission
order, by induction on the day count. -/
lemma scheduleOrder_spec (days : Nat) (channels : List String) :
    (scheduleOrder days channels).length = days * 4 * channels.length ∧
    (∀ d b ch, (scheduleOrder days channels).count (d, b, ch) =
      if d < days ∧ b < 4 then channels.count ch else 0) ∧
    (scheduleOrder days channels).Pairwise (fun x y => timeKey x ≤ timeKey y) := by
  induction days with
  | zero =>
    refine ⟨by simp [scheduleOrder], ?_, List.Pairwise.nil⟩
    intro d b ch
    simp [scheduleOrder]
  | succ n ih =>
    obtain ⟨ihlen, ihcount, ihpair⟩ := ih
    have hchunklen : (dayChunk n channels).length = 4 * channels.length := by
      have hr : List.range 4 = [0, 1, 2, 3] := rfl
      unfold dayChunk
      rw [hr]
      simp only [List.cons_flatMap, List.nil_flatMap, List.append_nil, List.length_append,
        List.length_map]
      ring
    refine ⟨?_, ?_, ?_⟩
    · rw [scheduleOrder_succ, List.length_append, ihlen, hchunklen]
      ring
    · intro d b ch
      rw [scheduleOrder_succ, List.count_append, ihcount, dayChunk_count]
      by_cases hd : d < n
      · have hdn : d ≠ n := by omega
        by_cases hb : b < 4 <;> simp [hd, hb, hdn, Nat.lt_succ_of_lt hd]
      · by_cases hdn : d = n
        · subst hdn
          by_cases hb : b < 4 <;> simp [hd, hb, Nat.lt_succ_self]
        · have hds : ¬ d < n + 1 := by omega
          simp [hd, hdn, hds]
    · rw [scheduleOrder_succ]
      refine List.pairwise_append.2 ⟨ihpair, dayChunk_pairwise n channels, ?_⟩
      intro x hx y hy
      have hxm := mem_scheduleOrder x n channels hx
      have hym := mem_dayChunk y n channels hy
      unfold timeKey
      omega

/-- C9 (amended): for a run of `days` days, exactly one programme entry
is emitted per (channel, day-block) triple over `days × 4` blocks — the
emitted list has length `days × 4 × #channels`, each
`(day, block, channel)` with `day < days`, `block < 4` occurs once per
occurrence of the channel, and over the program's `CHANNELS` list
exactly once — and the emission order is time-major, channel-minor:
time keys are nondecreasing along the list, so all channels' entries for
one block are consecutive, ordered by the channel list, before any entry
of a later block. -/
theorem programme_schedule (days : Nat) (channels : List String) :
    (scheduleOrder days channels).length = days * 4 * channels.length ∧
    (∀ d b ch, (scheduleOrder days channels).count (d, b, ch) =
      if d < days ∧ b < 4 then channels.count ch else 0) ∧
    (scheduleOrder days channels).Pairwise (fun x y => timeKey x ≤ timeKey y) ∧
    (∀ d b ch, (scheduleOrder days channelIds).count (d, b, ch) =
      if d < days ∧ b < 4 ∧ ch ∈ channelIds then 1 else 0) := by
  obtain ⟨hlen, hcount, hpair⟩ := scheduleOrder_spec days channels
  refine ⟨hlen, hcount, hpair, ?_⟩
  intro d b ch
  rw [(scheduleOrder_spec days channelIds).2.1 d b ch]
  by_cases hmem : ch ∈ channelIds
  · have h1 : channelIds.count ch = 1 :=
      List.count_eq_one_of_mem (by decide) hmem
    by_cases hd : d < days <;> by_cases hb : b < 4 <;> simp [hd, hb, hmem, h1]
  · have h0 : channelIds.count ch = 0 := List.count_eq_zero_of_not_mem hmem
    by_cases hd : d < days <;> by_cases hb : b < 4 <;> simp [hd, hb, hmem, h0]

end SurfEPG
